import Mathlib

/-!
Verification of the big-red dump/restore relay server.

The program (package main, `PerformDump` and the HTTP trigger handler) is
embedded shallowly:

* `RelayState` / `producerStep` / `consumerStep`: the streaming relay inside
  `PerformDump` — the reader goroutine (reads from `stdoutReader` in 4096-byte
  chunks and appends to the shared `bytes.Buffer` `storage` under `mutex`) and
  the writer goroutine (polls `reading`/`storage.Len()`, drains up to 2 MiB at
  a time into `stdinWriter`, then closes it and waits for the destination
  command).  Each region executed under the mutex, each unsynchronized local
  action, is one atomic step; a schedule is a list of booleans choosing which
  goroutine steps next.
* `RunEnv` / `performDump`: the run lifecycle — which operations of the run
  body fail, the deferred `recover`-and-settle block, and Go's rule that a
  panic raised in a spawned goroutine is not recovered by a deferred `recover`
  in the spawning goroutine (it terminates the process).
* `TrigState` / `pressStep` / `beginStep`: the `/press` handler's
  `if !state.Working { go state.PerformDump() }` check and the asynchronous
  `Working = true` assignment at the start of the spawned `PerformDump`.
* `elapsedRun`: the `Elapsed` method, `time.Since(*state.StartTime)`.
-/

namespace BigRed

/-- Size of the reader goroutine's read buffer: `buf := make([]byte, 4096)`.
An upstream read delivers at most this many bytes at once. -/
def chunkCap : Nat := 4096

/-- Capacity of the writer goroutine's buffer, `make([]byte, 1<<21)` (2 MiB);
used both as the wake condition (`currentLength < cap(buf)`) and as the
maximum single downstream write size. -/
def threshold : Nat := 2 ^ 21

/-- Program counter of the reader goroutine in `PerformDump`. -/
inductive ProducerPc where
  /-- about to execute `n, err := stdoutReader.Read(buf)` -/
  | pRead
  /-- about to execute `mutex.Lock(); bytesRead += n; mutex.Unlock()`,
      holding the chunk `buf[0:n]` just read -/
  | pCount (c : List Nat)
  /-- about to execute `mutex.Lock(); storage.Write(buf[0:n]); mutex.Unlock()` -/
  | pAppend (c : List Nat)
  /-- left the read loop; about to execute `mutex.Lock(); reading = false; mutex.Unlock()` -/
  | pMarkDone
  /-- about to execute `sourceSession.Wait()` -/
  | pWaitSrc
  /-- reader goroutine finished -/
  | pDone
  deriving DecidableEq

/-- Program counter of the writer goroutine in `PerformDump`. -/
inductive ConsumerPc where
  /-- about to execute the locked region reading `reading` and `storage.Len()`
      followed by the `continue`/`break` tests -/
  | cGate
  /-- about to execute `mutex.Lock(); n, err := storage.Read(buf); mutex.Unlock()` -/
  | cTake
  /-- about to execute `nw, err := stdinWriter.Write(buf[0:n])` with the drained slice -/
  | cWrite (chunk : List Nat)
  /-- left the write loop; about to execute `stdinWriter.Close()` -/
  | cClose
  /-- about to execute `destSession.Wait()` -/
  | cWaitDest
  /-- writer goroutine finished -/
  | cDone
  /-- `storage.Read` returned `io.EOF` and the goroutine panicked -/
  | cCrash
  deriving DecidableEq

/-- Shared and goroutine-local state of the relay inside one run of
`PerformDump`.  `input` is the sequence of results the upstream
`stdoutReader.Read` calls will return, in order; an empty chunk stands for a
read returning `(0, nil)` and the end of the list for `(0, io.EOF)`. -/
structure RelayState where
  input : List (List Nat)
  /-- contents of the shared `bytes.Buffer` `storage` (unread portion) -/
  storage : List Nat
  /-- the shared `reading` flag -/
  reading : Bool
  bytesRead : Nat
  /-- bytes written to `stdinWriter` so far, concatenated in delivery order -/
  delivered : List Nat
  bytesWritten : Nat
  /-- number of `stdinWriter.Close()` calls so far -/
  stdinCloses : Nat
  ppc : ProducerPc
  cpc : ConsumerPc
  deriving DecidableEq

/-- One atomic step of the reader goroutine. -/
def producerStep (s : RelayState) : RelayState :=
  match s.ppc with
  | .pRead =>
    match s.input with
    -- stream exhausted: Read returns (0, io.EOF); `err == io.EOF` passes the
    -- error test and `n == 0` breaks the loop
    | [] => { s with ppc := .pMarkDone }
    | c :: rest =>
      if c.isEmpty then
        -- Read returned (0, nil): `n == 0` breaks the loop
        { s with input := rest, ppc := .pMarkDone }
      else
        { s with input := rest, ppc := .pCount c }
  | .pCount c => { s with bytesRead := s.bytesRead + c.length, ppc := .pAppend c }
  | .pAppend c => { s with storage := s.storage ++ c, ppc := .pRead }
  | .pMarkDone => { s with reading := false, ppc := .pWaitSrc }
  | .pWaitSrc => { s with ppc := .pDone }
  | .pDone => s

/-- One atomic step of the writer goroutine. -/
def consumerStep (s : RelayState) : RelayState :=
  match s.cpc with
  | .cGate =>
    if s.reading = true ∧ s.storage.length < threshold then
      -- `if currentlyReading && currentLength < cap(buf) { continue }`:
      -- the state is re-polled, nothing changes
      s
    else if s.reading = false ∧ s.storage.length = 0 then
      -- `else if !currentlyReading && currentLength <= 0 { break }`
      { s with cpc := .cClose }
    else
      { s with cpc := .cTake }
  | .cTake =>
    if s.storage.isEmpty then
      -- `bytes.Buffer.Read` on an empty buffer returns (0, io.EOF) and the
      -- goroutine panics
      { s with cpc := .cCrash }
    else
      let n := min threshold s.storage.length
      { s with storage := s.storage.drop n, cpc := .cWrite (s.storage.take n) }
  | .cWrite chunk =>
    { s with delivered := s.delivered ++ chunk,
             bytesWritten := s.bytesWritten + chunk.length, cpc := .cGate }
  | .cClose => { s with stdinCloses := s.stdinCloses + 1, cpc := .cWaitDest }
  | .cWaitDest => { s with cpc := .cDone }
  | .cDone => s
  | .cCrash => s

/-- One step of the relay: `true` schedules the reader goroutine,
`false` the writer goroutine. -/
def relayStep (pturn : Bool) (s : RelayState) : RelayState :=
  if pturn then producerStep s else consumerStep s

/-- Run the relay under a given interleaving of the two goroutines. -/
def relayRun (sched : List Bool) (s : RelayState) : RelayState :=
  List.foldl (fun t b => relayStep b t) s sched

/-- The relay state as `PerformDump` sets it up:
`storage := bytes.Buffer{}; reading := true; bytesRead := 0; bytesWritten := 0`,
both goroutines at the top of their loops. -/
def initRelay (chunks : List (List Nat)) : RelayState :=
  { input := chunks, storage := [], reading := true, bytesRead := 0,
    delivered := [], bytesWritten := 0, stdinCloses := 0,
    ppc := .pRead, cpc := .cGate }

/-- The writer goroutine has left its copy loop (it is at `stdinWriter.Close()`,
`destSession.Wait()`, or finished). -/
def consumerExited : ConsumerPc → Bool
  | .cClose | .cWaitDest | .cDone => true
  | _ => false

/-- The chunk the reader has read but not yet appended to `storage`. -/
def pendingChunk : ProducerPc → List Nat
  | .pCount c => c
  | .pAppend c => c
  | _ => []

/-- The slice the writer has drained from `storage` but not yet written
downstream. -/
def inFlight : ConsumerPc → List Nat
  | .cWrite c => c
  | _ => []

/-- The reader goroutine has already executed `reading = false`. -/
def producerClosed : ProducerPc → Bool
  | .pWaitSrc | .pDone => true
  | _ => false

/-- The reader goroutine has left its read loop. -/
def producerBroke : ProducerPc → Bool
  | .pMarkDone | .pWaitSrc | .pDone => true
  | _ => false

/-- Invariant of the relay, for a run whose upstream read results are
`chunks` (all nonempty, i.e. the stream ends only via end-of-stream). -/
structure RelayInv (chunks : List (List Nat)) (s : RelayState) : Prop where
  /-- every produced byte is in exactly one place, in order: already delivered,
      drained but not yet written, in `storage`, read but not yet appended, or
      not yet read -/
  flow : s.delivered ++ inFlight s.cpc ++ s.storage ++ pendingChunk s.ppc
      ++ s.input.flatten = chunks.flatten
  /-- `reading` is true exactly until the reader executes `reading = false` -/
  readFlag : s.reading = !(producerClosed s.ppc)
  /-- the remaining upstream reads are all nonempty -/
  neInput : ∀ c ∈ s.input, c ≠ []
  /-- once the reader breaks out of its loop, the whole input was consumed -/
  brokeEmpty : producerBroke s.ppc = true → s.input = []
  /-- whenever the writer is at `storage.Read`, the buffer is nonempty -/
  takeNonempty : s.cpc = .cTake → s.storage ≠ []
  /-- once the writer leaves its loop, the buffer is flushed and the
      upstream has closed -/
  exitedFlushed : consumerExited s.cpc = true → s.storage = [] ∧ s.reading = false
  /-- `stdinWriter.Close()` has run exactly once after the loop, never before -/
  closes : s.stdinCloses = (if s.cpc = .cWaitDest ∨ s.cpc = .cDone then 1 else 0)
  /-- the writer never hits `io.EOF` from `storage.Read` -/
  noCrash : s.cpc ≠ .cCrash

theorem relayInv_init (chunks : List (List Nat)) (h : ∀ c ∈ chunks, c ≠ []) :
    RelayInv chunks (initRelay chunks) := by
  refine ⟨?_, rfl, h, ?_, ?_, ?_, rfl, ?_⟩ <;>
    simp [initRelay, inFlight, pendingChunk, consumerExited, producerBroke]

theorem relayInv_producerStep {chunks : List (List Nat)} {s : RelayState}
    (h : RelayInv chunks s) : RelayInv chunks (producerStep s) := by
  obtain ⟨hflow, hread, hne, hbroke, htake, hexit, hclose, hcrash⟩ := h
  cases s with
  | mk input storage reading bytesRead delivered bytesWritten stdinCloses ppc cpc =>
  cases ppc with
  | pRead =>
    cases input with
    | nil =>
      refine ⟨?_, ?_, ?_, ?_, ?_, ?_, ?_, ?_⟩ <;>
        simp_all [producerStep, pendingChunk, producerBroke, producerClosed]
    | cons c rest =>
      have hc : ¬ c.isEmpty := by
        simp only [List.isEmpty_iff]
        exact hne c (List.mem_cons_self c rest)
      refine ⟨?_, ?_, ?_, ?_, ?_, ?_, ?_, ?_⟩ <;>
        simp_all [producerStep, pendingChunk, producerBroke, producerClosed]
  | pCount c =>
    refine ⟨?_, ?_, ?_, ?_, ?_, ?_, ?_, ?_⟩ <;>
      simp_all [producerStep, pendingChunk, producerBroke, producerClosed]
  | pAppend c =>
    refine ⟨?_, ?_, ?_, ?_, ?_, ?_, ?_, ?_⟩ <;>
      simp_all [producerStep, pendingChunk, producerBroke, producerClosed]
  | pMarkDone =>
    refine ⟨?_, ?_, ?_, ?_, ?_, ?_, ?_, ?_⟩ <;>
      simp_all [producerStep, pendingChunk, producerBroke, producerClosed]
  | pWaitSrc =>
    refine ⟨?_, ?_, ?_, ?_, ?_, ?_, ?_, ?_⟩ <;>
      simp_all [producerStep, pendingChunk, producerBroke, producerClosed]
  | pDone =>
    exact ⟨hflow, hread, hne, hbroke, htake, hexit, hclose, hcrash⟩

theorem relayInv_consumerStep {chunks : List (List Nat)} {s : RelayState}
    (h : RelayInv chunks s) : RelayInv chunks (consumerStep s) := by
  obtain ⟨hflow, hread, hne, hbroke, htake, hexit, hclose, hcrash⟩ := h
  cases s with
  | mk input storage reading bytesRead delivered bytesWritten stdinCloses ppc cpc =>
  cases cpc with
  | cGate =>
    show RelayInv chunks
      (if (RelayState.mk input storage reading bytesRead delivered bytesWritten
            stdinCloses ppc .cGate).reading = true ∧ storage.length < threshold
       then _ else _)
    by_cases h1 : reading = true ∧ storage.length < threshold
    · rw [if_pos h1]
      exact ⟨hflow, hread, hne, hbroke, htake, hexit, hclose, hcrash⟩
    · rw [if_neg h1]
      by_cases h2 : reading = false ∧ storage.length = 0
      · rw [if_pos h2]
        have hs0 : storage = [] := List.length_eq_zero.mp h2.2
        refine ⟨?_, ?_, ?_, ?_, ?_, ?_, ?_, ?_⟩ <;>
          simp_all [inFlight, consumerExited]
      · rw [if_neg h2]
        have hsne : storage ≠ [] := by
          intro hnil
          subst hnil
          rcases Bool.eq_false_or_eq_true reading with hr | hr
          · exact h1 ⟨hr, by simp [threshold]⟩
          · exact h2 ⟨hr, rfl⟩
        refine ⟨?_, ?_, ?_, ?_, ?_, ?_, ?_, ?_⟩ <;>
          simp_all [inFlight, consumerExited]
  | cTake =>
    have hsne : storage ≠ [] := htake rfl
    refine ⟨?_, ?_, ?_, ?_, ?_, ?_, ?_, ?_⟩ <;>
      simp_all [consumerStep, inFlight, consumerExited, List.isEmpty_iff]
  | cWrite chunk =>
    refine ⟨?_, ?_, ?_, ?_, ?_, ?_, ?_, ?_⟩ <;>
      simp_all [consumerStep, inFlight, consumerExited]
  | cClose =>
    refine ⟨?_, ?_, ?_, ?_, ?_, ?_, ?_, ?_⟩ <;>
      simp_all [consumerStep, inFlight, consumerExited]
  | cWaitDest =>
    refine ⟨?_, ?_, ?_, ?_, ?_, ?_, ?_, ?_⟩ <;>
      simp_all [consumerStep, inFlight, consumerExited]
  | cDone =>
    refine ⟨?_, ?_, ?_, ?_, ?_, ?_, ?_, ?_⟩ <;>
      simp_all [consumerStep, inFlight, consumerExited]
  | cCrash =>
    exact absurd rfl hcrash

theorem relayInv_step {chunks : List (List Nat)} {s : RelayState} (b : Bool)
    (h : RelayInv chunks s) : RelayInv chunks (relayStep b s) := by
  cases b with
  | true => exact relayInv_producerStep h
  | false => exact relayInv_consumerStep h

theorem relayInv_run {chunks : List (List Nat)} (sched : List Bool) :
    ∀ s : RelayState, RelayInv chunks s → RelayInv chunks (relayRun sched s) := by
  induction sched with
  | nil => intro s h; exact h
  | cons b rest ih =>
    intro s h
    exact ih (relayStep b s) (relayInv_step b h)

theorem relayInv_reachable (chunks : List (List Nat)) (h : ∀ c ∈ chunks, c ≠ [])
    (sched : List Bool) : RelayInv chunks (relayRun sched (initRelay chunks)) :=
  relayInv_run sched (initRelay chunks) (relayInv_init chunks h)

theorem producerClosed_broke {p : ProducerPc} (h : producerClosed p = true) :
    producerBroke p = true := by
  cases p <;> simp_all [producerClosed, producerBroke]

theorem producerClosed_pending {p : ProducerPc} (h : producerClosed p = true) :
    pendingChunk p = [] := by
  cases p <;> simp_all [producerClosed, pendingChunk]

theorem consumerExited_inFlight {c : ConsumerPc} (h : consumerExited c = true) :
    inFlight c = [] := by
  cases c <;> simp_all [consumerExited, inFlight]

/-- Once the writer has left its loop, every produced byte has been delivered,
in order. -/
theorem relay_exited_delivered {chunks : List (List Nat)}
    (h : ∀ c ∈ chunks, c ≠ []) (sched : List Bool)
    (hdone : consumerExited (relayRun sched (initRelay chunks)).cpc = true) :
    (relayRun sched (initRelay chunks)).delivered = chunks.flatten := by
  obtain ⟨hflow, hread, hne, hbroke, htake, hexit, hclose, hcrash⟩ :=
    relayInv_reachable chunks h sched
  obtain ⟨hstor, hrd⟩ := hexit hdone
  have hclosed : producerClosed (relayRun sched (initRelay chunks)).ppc = true := by
    rw [hrd] at hread
    cases hp : producerClosed (relayRun sched (initRelay chunks)).ppc <;>
      simp_all
  have hin : (relayRun sched (initRelay chunks)).input = [] :=
    hbroke (producerClosed_broke hclosed)
  rw [consumerExited_inFlight hdone, producerClosed_pending hclosed, hstor, hin]
    at hflow
  simpa using hflow

theorem relayRun_cons (b : Bool) (l : List Bool) (s : RelayState) :
    relayRun (b :: l) s = relayRun l (relayStep b s) := rfl

/-- A schedule that lets the reader goroutine run alone, three steps per
remaining upstream chunk. -/
def prodSched : List (List Nat) → List Bool
  | [] => []
  | _ :: rest => true :: true :: true :: prodSched rest

/-- Letting the reader goroutine run alone appends the whole remaining input
to `storage`: nothing in the reader waits for the writer. -/
theorem producer_consume_all (l : List (List Nat)) :
    ∀ s : RelayState, (∀ c ∈ l, c ≠ []) → s.ppc = .pRead → s.input = l →
      relayRun (prodSched l) s =
        { s with input := [], storage := s.storage ++ l.flatten,
                 bytesRead := s.bytesRead + l.flatten.length } := by
  induction l with
  | nil =>
    intro s _ hp hi
    cases s
    simp_all [prodSched, relayRun]
  | cons c rest ih =>
    intro s hne hp hi
    have hc : ¬ c.isEmpty = true := by
      simp only [List.isEmpty_iff]
      exact hne c (List.mem_cons_self c rest)
    cases s with
    | mk input storage reading bytesRead delivered bytesWritten stdinCloses ppc cpc =>
    simp only at hp hi
    subst hp hi
    show relayRun (prodSched rest)
        (relayStep true (relayStep true (relayStep true _))) = _
    have hstep : relayStep true (relayStep true (relayStep true
        (RelayState.mk (c :: rest) storage reading bytesRead delivered
          bytesWritten stdinCloses .pRead cpc))) =
        RelayState.mk rest (storage ++ c) reading (bytesRead + c.length)
          delivered bytesWritten stdinCloses .pRead cpc := by
      simp [relayStep, producerStep, hc]
    rw [hstep, ih _ (fun d hd => hne d (List.mem_cons_of_mem c hd)) rfl rfl]
    simp [List.append_assoc, Nat.add_assoc]

/-- C1: for every sequence of chunks produced by the source stream and every
interleaving under which the writer goroutine finishes its copy loop, the bytes
written to the destination's stdin, concatenated in delivery order, equal the
source bytes concatenated in production order. -/
theorem relay_no_loss (chunks : List (List Nat)) (h : ∀ c ∈ chunks, c ≠ [])
    (sched : List Bool)
    (hdone : consumerExited (relayRun sched (initRelay chunks)).cpc = true) :
    (relayRun sched (initRelay chunks)).delivered = chunks.flatten :=
  relay_exited_delivered h sched hdone

theorem relay_no_loss_w :
    consumerExited (relayRun (List.replicate 8 true ++ List.replicate 4 false)
      (initRelay [[1, 2], [3]])).cpc = true ∧
    (relayRun (List.replicate 8 true ++ List.replicate 4 false)
      (initRelay [[1, 2], [3]])).delivered = [[1, 2], [3]].flatten :=
  ⟨by decide, relay_no_loss [[1, 2], [3]] (by decide) _ (by decide)⟩

/-- The upstream read results used to overrun the backpressure bound:
514 full reads of 4096 bytes, two reads more than fit in 2 MiB. -/
def bigChunks : List (List Nat) := List.replicate 514 (List.replicate 4096 0)

theorem bigChunks_ne : ∀ c ∈ bigChunks, c ≠ [] := by
  intro c hc
  have hcv := List.eq_of_mem_replicate hc
  subst hcv
  intro hnil
  have hl := congrArg List.length hnil
  rw [List.length_replicate] at hl
  simp at hl

/-- C6 counterexample: there is an interleaving (the reader goroutine running
while the writer has not yet drained) under which the buffered-but-undelivered
bytes exceed one backpressure threshold (2 MiB) plus one upstream read chunk
(4096 bytes).  Nothing in the reader waits for the writer, so the claimed
bound does not hold. -/
theorem buffer_exceeds_threshold_plus_chunk :
    ∃ sched : List Bool,
      threshold + chunkCap <
        (relayRun sched (initRelay bigChunks)).storage.length := by
  refine ⟨prodSched bigChunks, ?_⟩
  rw [producer_consume_all bigChunks (initRelay bigChunks) bigChunks_ne rfl rfl]
  show threshold + chunkCap < (([] : List Nat) ++ bigChunks.flatten).length
  rw [List.nil_append]
  have hlen : bigChunks.flatten.length = 514 * 4096 := by
    rw [bigChunks, List.length_flatten, List.map_replicate,
      List.length_replicate, List.sum_replicate, smul_eq_mul]
  rw [hlen]
  norm_num [threshold, chunkCap]

/-- C6 amended: the only bound the code guarantees on the buffered bytes is
the total number of bytes the upstream produces. -/
theorem buffer_bounded_by_total_input (chunks : List (List Nat))
    (h : ∀ c ∈ chunks, c ≠ []) (sched : List Bool) :
    (relayRun sched (initRelay chunks)).storage.length ≤
      chunks.flatten.length := by
  have hflow := (relayInv_reachable chunks h sched).flow
  have hl := congrArg List.length hflow
  simp only [List.length_append] at hl
  omega

theorem buffer_bounded_by_total_input_w :
    (relayRun [] (initRelay [[1]])).storage.length ≤ [[1]].flatten.length :=
  buffer_bounded_by_total_input [[1]] (by decide) []

/-- C7: while `reading` is set and fewer than one threshold's worth of bytes
are buffered, the writer goroutine's step is the `continue` branch: an enabled
step that leaves the state unchanged.  The writer busy-polls; it is never
blocked waiting on a condition variable or channel. -/
theorem writer_busy_polls (s : RelayState) (h1 : s.cpc = .cGate)
    (h2 : s.reading = true) (h3 : s.storage.length < threshold) :
    consumerStep s = s := by
  cases s with
  | mk input storage reading bytesRead delivered bytesWritten stdinCloses ppc cpc =>
  simp only at h1 h2 h3
  subst h1 h2
  simp [consumerStep, h3]

theorem writer_busy_polls_w :
    consumerStep (initRelay [[1]]) = initRelay [[1]] :=
  writer_busy_polls (initRelay [[1]]) rfl rfl (by decide)

/-- C8: `stdinWriter.Close()` runs at most once in any interleaving; when it
has run, the upstream had signaled end-of-stream and every produced byte had
already been delivered; and when the writer goroutine finishes, it has run
exactly once. -/
theorem stdin_closed_once_after_flush (chunks : List (List Nat))
    (h : ∀ c ∈ chunks, c ≠ []) (sched : List Bool) :
    (relayRun sched (initRelay chunks)).stdinCloses ≤ 1 ∧
    ((relayRun sched (initRelay chunks)).stdinCloses = 1 →
      (relayRun sched (initRelay chunks)).reading = false ∧
      (relayRun sched (initRelay chunks)).storage = [] ∧
      (relayRun sched (initRelay chunks)).delivered = chunks.flatten) ∧
    ((relayRun sched (initRelay chunks)).cpc = .cDone →
      (relayRun sched (initRelay chunks)).stdinCloses = 1) := by
  have hinv := relayInv_reachable chunks h sched
  have hclose := hinv.closes
  have hexit := hinv.exitedFlushed
  refine ⟨?_, ?_, ?_⟩
  · rw [hclose]
    split <;> omega
  · intro h1
    have hcond : (relayRun sched (initRelay chunks)).cpc = .cWaitDest ∨
        (relayRun sched (initRelay chunks)).cpc = .cDone := by
      by_contra hc
      rw [if_neg hc] at hclose
      omega
    have hdone : consumerExited (relayRun sched (initRelay chunks)).cpc = true := by
      rcases hcond with hw | hw <;> rw [hw] <;> rfl
    exact ⟨(hexit hdone).2, (hexit hdone).1, relay_exited_delivered h sched hdone⟩
  · intro hd
    rw [hclose, if_pos (Or.inr hd)]

theorem stdin_closed_once_after_flush_w :
    (relayRun (List.replicate 5 true ++ List.replicate 6 false)
      (initRelay [[5]])).stdinCloses ≤ 1 ∧
    ((relayRun (List.replicate 5 true ++ List.replicate 6 false)
      (initRelay [[5]])).stdinCloses = 1 →
      (relayRun (List.replicate 5 true ++ List.replicate 6 false)
        (initRelay [[5]])).reading = false ∧
      (relayRun (List.replicate 5 true ++ List.replicate 6 false)
        (initRelay [[5]])).storage = [] ∧
      (relayRun (List.replicate 5 true ++ List.replicate 6 false)
        (initRelay [[5]])).delivered = [[5]].flatten) ∧
    ((relayRun (List.replicate 5 true ++ List.replicate 6 false)
      (initRelay [[5]])).cpc = .cDone →
      (relayRun (List.replicate 5 true ++ List.replicate 6 false)
        (initRelay [[5]])).stdinCloses = 1) :=
  stdin_closed_once_after_flush [[5]] (by decide) _

/-- C10: a read from the source's stdout that returns zero bytes with a nil
error makes the reader goroutine break out of its loop without touching the
rest of the stream, then set `reading = false`, and move on to
`sourceSession.Wait()`. -/
theorem zero_byte_read_ends_stream (s : RelayState) (rest : List (List Nat))
    (h1 : s.ppc = .pRead) (h2 : s.input = [] :: rest) :
    producerStep s = { s with input := rest, ppc := .pMarkDone } ∧
    producerStep (producerStep s) =
      { s with input := rest, reading := false, ppc := .pWaitSrc } := by
  cases s with
  | mk input storage reading bytesRead delivered bytesWritten stdinCloses ppc cpc =>
  simp only at h1 h2
  subst h1 h2
  constructor <;> simp [producerStep]

theorem zero_byte_read_ends_stream_w :
    producerStep (initRelay [[], [7]]) =
      { initRelay [[], [7]] with input := [[7]], ppc := .pMarkDone } ∧
    producerStep (producerStep (initRelay [[], [7]])) =
      { initRelay [[], [7]] with
        input := [[7]]
        reading := false
        ppc := .pWaitSrc } :=
  zero_byte_read_ends_stream (initRelay [[], [7]]) [[7]] rfl rfl

/-- A Go panic value as it matters to the deferred block of `PerformDump`:
its two type assertions `r.(string)` and `r.(error)`, and everything else. -/
inductive PanicVal where
  /-- `panic("...")` with a string value -/
  | str (msg : String)
  /-- `panic(err)` with an error value whose `Error()` is `msg` -/
  | err (msg : String)
  /-- a panic value of any other type -/
  | other
  deriving DecidableEq

/-- The fields of `AppState` that `PerformDump` mutates, plus `LastRun`.
Timestamps are integers; `none` models a nil `*time.Time`. -/
structure AppStateRec where
  working : Bool
  startTime : Option Int
  lastRunError : String
  lastRunStart : Option Int
  deriving DecidableEq

/-- Which operations of one `PerformDump` run fail, and how.  `none` means the
operation succeeds; `some e` carries the Go error's `Error()` text (or, for
`injected`, an arbitrary panic value standing for the spec's injected internal
fault, raised at the start of the run body in `PerformDump`'s own goroutine).
Fields are listed in the order the run body reaches the operations. -/
structure RunEnv where
  injected : Option PanicVal
  /-- `ssh.Dial` for the source endpoint (inside `newSourceSession`) -/
  dialSrcErr : Option String
  /-- `client.NewSession` for the source endpoint -/
  sessionSrcErr : Option String
  /-- `ssh.Dial` for the destination endpoint -/
  dialDstErr : Option String
  /-- `client.NewSession` for the destination endpoint -/
  sessionDstErr : Option String
  /-- `sourceSession.StdoutPipe()` -/
  stdoutPipeErr : Option String
  /-- `destSession.StdinPipe()` -/
  stdinPipeErr : Option String
  /-- `sourceSession.Start(...)` -/
  startSrcErr : Option String
  /-- `destSession.Start(...)` -/
  startDstErr : Option String
  /-- a mid-transfer `stdoutReader.Read` error other than `io.EOF`
      (reader goroutine does `panic(err)`) -/
  readErr : Option String
  /-- `sourceSession.Wait()` failure: source command exited non-zero
      (reader goroutine panics with a string) -/
  waitSrcErr : Option String
  /-- a mid-transfer `stdinWriter.Write` error (writer goroutine does `panic(err)`) -/
  writeErr : Option String
  /-- `destSession.Wait()` failure: destination command exited non-zero
      (writer goroutine panics with a string) -/
  waitDstErr : Option String
  deriving DecidableEq

/-- The first failure the run body hits in `PerformDump`'s own goroutine
(session creation, pipe creation, command start), with the panic message the
code builds for it.  `none` if all of these succeed. -/
def firstMainErr (env : RunEnv) : Option String :=
  match env.dialSrcErr with
  | some e => some ("Failed to dial: " ++ e)
  | none =>
  match env.sessionSrcErr with
  | some e => some ("Failed to create session: " ++ e)
  | none =>
  match env.dialDstErr with
  | some e => some ("Failed to dial: " ++ e)
  | none =>
  match env.sessionDstErr with
  | some e => some ("Failed to create session: " ++ e)
  | none =>
  match env.stdoutPipeErr with
  | some e => some ("Could create pipe: " ++ e)
  | none =>
  match env.stdinPipeErr with
  | some e => some ("Could create pipe: " ++ e)
  | none =>
  match env.startSrcErr with
  | some e => some ("Failed to run source command: " ++ e)
  | none =>
  match env.startDstErr with
  | some e => some ("Failed to run destination command: " ++ e)
  | none => none

/-- The first panic raised inside the reader or writer goroutine, with the
panic value the code uses there.  These panics occur on the spawned
goroutines' stacks, where no `recover` is installed. -/
def goroutinePanicOf (env : RunEnv) : Option PanicVal :=
  match env.readErr with
  | some e => some (.err e)
  | none =>
  match env.waitSrcErr with
  | some e => some (.str ("Source command failed: " ++ e))
  | none =>
  match env.writeErr with
  | some e => some (.err e)
  | none =>
  match env.waitDstErr with
  | some e => some (.str ("Destination command failed: " ++ e))
  | none => none

/-- How the body of `PerformDump` ends. -/
inductive BodyOutcome where
  /-- body returned normally -/
  | normal
  /-- a panic on `PerformDump`'s own goroutine, recovered by its deferred block -/
  | panicked (v : PanicVal)
  /-- a panic inside a spawned goroutine: no `recover` on that stack -/
  | goroutinePanic (v : PanicVal)
  deriving DecidableEq

def bodyOutcome (env : RunEnv) : BodyOutcome :=
  match env.injected with
  | some v => .panicked v
  | none =>
  match firstMainErr env with
  | some m => .panicked (.str m)
  | none =>
  match goroutinePanicOf env with
  | some v => .goroutinePanic v
  | none => .normal

/-- Result of one `PerformDump` call. -/
inductive RunResult where
  /-- an unrecovered panic on a spawned goroutine terminated the process -/
  | crashed (v : PanicVal)
  /-- the deferred block ran to completion -/
  | settled (s : AppStateRec)
  deriving DecidableEq

/-- One `PerformDump` run: the body sets `Working = true` and
`StartTime = &start`, then runs; the deferred block recovers a panic from the
body's own goroutine (storing `r` if it is a string, `r.Error()` if it is an
error, and leaving `LastRun.Error` untouched otherwise; clearing it to `""`
when there was no panic), copies `StartTime` into `LastRun.StartTime`, and
resets `Working`/`StartTime`.  A panic on a spawned goroutine is not
recovered: the process dies. -/
def performDump (env : RunEnv) (startAt : Int) (s0 : AppStateRec) : RunResult :=
  match bodyOutcome env with
  | .goroutinePanic v => .crashed v
  | .normal =>
    .settled { working := false, startTime := none,
               lastRunError := "", lastRunStart := some startAt }
  | .panicked v =>
    .settled { working := false, startTime := none,
               lastRunError :=
                 match v with
                 | .str m => m
                 | .err m => m
                 | .other => s0.lastRunError,
               lastRunStart := some startAt }

/-- The run's environment when every operation succeeds. -/
def cleanEnv : RunEnv :=
  { injected := none, dialSrcErr := none, sessionSrcErr := none,
    dialDstErr := none, sessionDstErr := none, stdoutPipeErr := none,
    stdinPipeErr := none, startSrcErr := none, startDstErr := none,
    readErr := none, waitSrcErr := none, writeErr := none, waitDstErr := none }

/-- `Elapsed`, i.e. `time.Since(*state.StartTime)`: `none` models the nil
pointer dereference fault when `StartTime` is nil. -/
def elapsedRun (now : Int) (s : AppStateRec) : Option Int :=
  match s.startTime with
  | none => none
  | some t => some (now - t)

theorem append_str_ne_empty (p e : String) (hp : p.length ≠ 0) :
    p ++ e ≠ "" := by
  intro h
  have hl := congrArg String.length h
  rw [String.length_append] at hl
  have h2 : ("" : String).length = 0 := rfl
  omega

theorem firstMainErr_ne_empty {env : RunEnv} {m : String}
    (h : firstMainErr env = some m) : m ≠ "" := by
  unfold firstMainErr at h
  repeat' split at h
  all_goals first
    | exact Option.noConfusion h
    | (injection h with h; subst h; exact append_str_ne_empty _ _ (by decide))

/-- State of the trigger path: `Working`, the number of `PerformDump`
goroutines spawned by `/press` that have not yet executed their first
statements, and the number of runs that have begun executing. -/
structure TrigState where
  working : Bool
  pending : Nat
  runs : Nat
  deriving DecidableEq

/-- The `/press` handler: `if !state.Working { go state.PerformDump() }`.
It spawns a goroutine but does not itself modify `Working`. -/
def pressStep (s : TrigState) : TrigState :=
  if s.working then s else { s with pending := s.pending + 1 }

/-- A spawned `PerformDump` goroutine begins executing: its first statements
set `Working = true` (and `StartTime`), unconditionally. -/
def beginStep (s : TrigState) : TrigState :=
  match s.pending with
  | 0 => s
  | p + 1 => { working := true, pending := p, runs := s.runs + 1 }

/-- Interleaved events on the trigger path. -/
inductive TrigAct where
  /-- a `/press` request is handled -/
  | press
  /-- a previously spawned `PerformDump` goroutine starts running -/
  | begin
  deriving DecidableEq

def trigStep : TrigAct → TrigState → TrigState
  | .press, s => pressStep s
  | .begin, s => beginStep s

def trigRun (l : List TrigAct) (s : TrigState) : TrigState :=
  List.foldl (fun s a => trigStep a s) s l

/-- The process's initial trigger state: Idle, nothing spawned. -/
def trigInit : TrigState := ⟨false, 0, 0⟩

/-- C2: a mid-transfer read failure, or a non-zero source exit, panics inside
the reader goroutine, where no `recover` is installed; the process crashes and
`lastRun.error` is never written, contrary to the claim that every run-body
failure is caught at the run's outermost boundary. -/
theorem midtransfer_fault_crashes_process :
    performDump { cleanEnv with readErr := some ("read: connection reset by peer") }
        5 ⟨false, none, "", none⟩ =
      .crashed (.err ("read: connection reset by peer")) ∧
    performDump { cleanEnv with waitSrcErr := some ("exit status 1") }
        5 ⟨false, none, "", none⟩ =
      .crashed (.str ("Source command failed: exit status 1")) :=
  ⟨rfl, rfl⟩

/-- C3 counterexample: two `/press` requests arriving back-to-back from Idle,
before either spawned `PerformDump` goroutine has run its first statement,
both pass the `!state.Working` check — two runs execute, not one. -/
theorem double_press_two_runs :
    (trigRun [.press, .press, .begin, .begin] trigInit).runs = 2 := rfl

/-- C3 amended: a trigger arriving after a run has set `Working` is a no-op,
and in that interleaving exactly one run executes; but the phase check is not
atomic with respect to the spawned run's `Working = true` assignment. -/
theorem press_noop_when_running :
    (∀ s : TrigState, s.working = true → pressStep s = s) ∧
    (trigRun [.press, .begin, .press, .begin] trigInit).runs = 1 := by
  constructor
  · intro s hw
    simp [pressStep, hw]
  · rfl

theorem press_noop_when_running_w :
    pressStep ⟨true, 0, 1⟩ = ⟨true, 0, 1⟩ ∧
    (trigRun [.press, .begin, .press, .begin] trigInit).runs = 1 :=
  ⟨press_noop_when_running.1 ⟨true, 0, 1⟩ rfl, press_noop_when_running.2⟩

/-- C4 counterexample: an injected internal fault whose panic value is neither
a string nor an error is recovered, the run settles to Idle, but
`LastRun.Error` is left untouched — here empty — so it neither is non-empty
nor describes the failure. -/
theorem other_fault_leaves_error_empty :
    ∃ s : AppStateRec,
      performDump { cleanEnv with injected := some .other } 5
          ⟨false, none, "", none⟩ = .settled s ∧
      s.lastRunError = "" :=
  ⟨⟨false, none, "", some 5⟩, rfl, rfl⟩

/-- C4 amended: for the failure points that panic on `PerformDump`'s own
goroutine — session open (dial or NewSession, either endpoint), pipe creation,
and command start — the run settles with `Working = false`, `StartTime = nil`,
and `LastRun.Error` set to the code's non-empty message for that failure. -/
theorem main_fault_settles_with_message (env : RunEnv) (s0 : AppStateRec)
    (t : Int) (m : String) (hinj : env.injected = none)
    (hm : firstMainErr env = some m) :
    performDump env t s0 = .settled ⟨false, none, m, some t⟩ ∧ m ≠ "" := by
  constructor
  · simp only [performDump, bodyOutcome, hinj, hm]
  · exact firstMainErr_ne_empty hm

theorem main_fault_settles_with_message_w :
    performDump { cleanEnv with dialSrcErr := some ("connection refused") } 3
        ⟨false, none, "", none⟩ =
      .settled ⟨false, none, ("Failed to dial: connection refused"), some 3⟩ ∧
    ("Failed to dial: connection refused" : String) ≠ "" :=
  main_fault_settles_with_message _ ⟨false, none, "", none⟩ 3
    ("Failed to dial: connection refused") rfl (by decide)

/-- C5: a run in which every operation succeeds settles with
`LastRun.Error = ""` and `LastRun.StartTime` equal to the timestamp taken when
the run started. -/
theorem clean_run_settles_success (s0 : AppStateRec) (t : Int) :
    performDump cleanEnv t s0 = .settled ⟨false, none, "", some t⟩ := rfl

/-- C9: while a run is in progress (`StartTime` set), `Elapsed` does not fault
and returns now minus the start time. -/
theorem elapsed_running_ok (now t0 : Int) (s : AppStateRec)
    (h : s.startTime = some t0) :
    elapsedRun now s = some (now - t0) := by
  unfold elapsedRun
  rw [h]

theorem elapsed_running_ok_w :
    elapsedRun 10 ⟨true, some 4, "", none⟩ = some (10 - 4) :=
  elapsed_running_ok 10 4 ⟨true, some 4, "", none⟩ rfl

end BigRed
